import Mathlib

/-!
Shallow embedding of `src/putemg_download/download.py` (putemg-analysis).

The Python module downloads putEMG dataset files.  Its observable logic is:

* `parse_record(name)` — matches the regex
  `^(?P<type>\w*)-(?P<id>\d{2})-(?P<trajectory>\w*)-(?P<date>\d{4}-\d{2}-\d{2})-(?P<time>\d{2}-\d{2}-\d{2}-\d{3})`
  with `re.search` and returns the five groups, raising on mismatch.
* `download(experiment_types, media_types, data_ids)` — validates the three
  filter lists, fetches and parses the manifest, intersects IDs, creates the
  per-media-type directories, and spawns one `fetch_data` task per matching
  (record, media type) pair.
* `fetch_data(...)` — skips the download when the local file already exists
  and `overwrite_existing` is false, otherwise performs one HTTP GET and
  writes the body.
* `get_records_dataframe(...)` — same validation/matching pipeline, returning
  the matched rows (wrapped in a DataFrame on most paths, and the bare Python
  list on the ID-validation failure paths).

Network and filesystem effects are made explicit: the manifest text is an
input, `fetch_data` takes the existing-file predicate as an argument, and the
directories created / tasks spawned by `download` are returned as a `Plan`.
-/

namespace PutEmg

/-- `BASE_URL` constant (download.py line 12). -/
def BASE_URL : String := "https://chmura.put.poznan.pl/s/G285gnQVuCnfQAx/download?path=%2F"

/-- Directory-name constant (download.py line 14). -/
def VIDEO_1080p_DIR : String := "Video-1080p"

/-- Directory-name constant (download.py line 15). -/
def VIDEO_576p_DIR : String := "Video-576p"

/-- Directory-name constant (download.py line 16). -/
def DEPTH_DIR : String := "Depth"

/-- Directory-name constant (download.py line 17). -/
def DATA_HDF5_DIR : String := "Data-HDF5"

/-- Directory-name constant (download.py line 18). -/
def DATA_CSV_DIR : String := "Data-CSV"

/-- The 5-tuple returned by `parse_record`: `(type, id, trajectory, date, time)`.
A record of the manifest, in the source's tuple order. -/
structure Rec where
  type : String
  id : String
  trajectory : String
  date : String
  time : String
deriving DecidableEq, Repr

/-- Python `\w` restricted to ASCII (the dataset's names are ASCII): a letter,
a digit or an underscore.  Note `'-'` is not a word character. -/
def isWordChar (c : Char) : Bool := c.isAlphanum || c == '_'

/-- The greedy `\w*` of the regex: the maximal leading run of word characters
and the rest.  Because a word character is never `'-'`, the regex engine can
only ever end each `\w*` group (each is followed by a literal `-`) at this
maximal run, so greedy matching needs no backtracking here. -/
def wordSpan : List Char → List Char × List Char
  | [] => ([], [])
  | c :: cs =>
    if isWordChar c then
      let (w, r) := wordSpan cs
      (c :: w, r)
    else ([], c :: cs)

/-- `\d{n}`: exactly `n` decimal digits, returning them and the rest. -/
def takeDigits : Nat → List Char → Option (List Char × List Char)
  | 0, cs => some ([], cs)
  | _ + 1, [] => none
  | n + 1, c :: cs =>
    if c.isDigit then (takeDigits n cs).map (fun p => (c :: p.1, p.2)) else none

/-- A literal `-` of the regex. -/
def expectDash : List Char → Option (List Char)
  | '-' :: cs => some cs
  | _ => none

/-- The `date` group `\d{4}-\d{2}-\d{2}`, returned as matched text. -/
def takeDate (cs : List Char) : Option (List Char × List Char) := do
  let (y, cs) ← takeDigits 4 cs
  let cs ← expectDash cs
  let (mo, cs) ← takeDigits 2 cs
  let cs ← expectDash cs
  let (d, cs) ← takeDigits 2 cs
  return (y ++ '-' :: mo ++ '-' :: d, cs)

/-- The `time` group `\d{2}-\d{2}-\d{2}-\d{3}`, returned as matched text. -/
def takeTime (cs : List Char) : Option (List Char × List Char) := do
  let (h, cs) ← takeDigits 2 cs
  let cs ← expectDash cs
  let (mi, cs) ← takeDigits 2 cs
  let cs ← expectDash cs
  let (s, cs) ← takeDigits 2 cs
  let cs ← expectDash cs
  let (ms, cs) ← takeDigits 3 cs
  return (h ++ '-' :: mi ++ '-' :: s ++ '-' :: ms, cs)

/-- The experiment-name regex of `parse_record` (download.py lines 49-52), run
on a character list.  The pattern is anchored at the start by `^` (so
`re.search` can only match at position 0) and has no end anchor (trailing
characters are ignored).  As each `\w*` is followed by a literal `-` and the
digit groups have fixed width, the greedy match is deterministic. -/
def parseRecordChars (cs : List Char) : Option Rec := do
  let (ty, cs) := wordSpan cs
  let cs ← expectDash cs
  let (idc, cs) ← takeDigits 2 cs
  let cs ← expectDash cs
  let (traj, cs) := wordSpan cs
  let cs ← expectDash cs
  let (date, cs) ← takeDate cs
  let cs ← expectDash cs
  let (time, _) ← takeTime cs
  return ⟨⟨ty⟩, ⟨idc⟩, ⟨traj⟩, ⟨date⟩, ⟨time⟩⟩

/-- `parse_record` (download.py lines 48-62).  `none` models the
`raise Warning("Wrong record", name)` path. -/
def parse_record (name : String) : Option Rec := parseRecordChars name.data

/-- The record name rebuilt at download.py line 155:
`"{:s}-{:s}-{:s}-{:s}-{:s}".format(r[0], r[1], r[2], r[3], r[4])`. -/
def formatRecord (r : Rec) : String :=
  r.type ++ "-" ++ r.id ++ "-" ++ r.trajectory ++ "-" ++ r.date ++ "-" ++ r.time

example :
    parse_record "emg_gestures-03-sequential-2018-05-11-11-05-00-695" =
      some ⟨"emg_gestures", "03", "sequential", "2018-05-11", "11-05-00-695"⟩ := by
  decide

example : parse_record "emg_gestures-3-walk-2020-01-01-12-00-00-000" = none := by decide

example : parse_record "emg_gestures-03" = none := by decide

/-! ## Validation and the download pipeline -/

/-- The outcomes of the early-`return` paths of `download` /
`get_records_dataframe`, plus the uncaught `Warning` from `parse_record`.
In the source each is a `print` followed by `return`; the spec groups them
into its `ValidationError` / `MalformedRecordError` taxonomy (`invalidId` is
the `print('Invalid id ...')` path and `idNotAvailable` the
`print('ID ... not available')` path; both are the spec's `InvalidIdError`). -/
inductive DlError where
  | missingArguments
  | invalidExperimentType (e : String)
  | invalidMediaType (m : String)
  | malformedRecord (line : String)
  | invalidId (id : String)
  | idNotAvailable (id : String)
deriving DecidableEq, Repr

/-- `e in ("emg_gestures", "emg_force")` (download.py line 89): tuple
membership, i.e. equality with one of the two experiment types. -/
def experimentTypeOk (e : String) : Bool := e == "emg_gestures" || e == "emg_force"

/-- The fixed tuple of supported media types (download.py line 98). -/
def knownMediaTypes : List String :=
  ["data-csv", "data-hdf5", "depth", "video-1080p", "video-576p"]

/-- Python's `in` on strings (`m in t`): `m` occurs contiguously inside `t`,
i.e. `m.data` is a prefix of some suffix of `t.data`. -/
def isSubstringOf (m t : String) : Bool :=
  t.data.tails.any (fun suff => m.data.isPrefixOf suff)

/-- `any(m in t for t in (...))` (download.py lines 96-99): the requested
media type is accepted when it is a substring of a known media type. -/
def mediaTypeOk (m : String) : Bool :=
  knownMediaTypes.any (fun t => isSubstringOf m t)

/-- `re.match(r"^[0-9]{2}$", id)` (download.py line 125): exactly two ASCII
digits — except that Python's `$` also matches just before a single trailing
newline, so `"03\n"` matches as well. -/
def twoDigitId (s : String) : Bool :=
  match s.data with
  | [a, b] => a.isDigit && b.isDigit
  | [a, b, '\n'] => a.isDigit && b.isDigit
  | _ => false

/-- The manifest-parsing loop (download.py lines 115-120): parse every line,
aborting at the first line on which `parse_record` raises (the exception
propagates out of `download`).  The error carries the offending line. -/
def parseAll : List String → Except String (List Rec)
  | [] => .ok []
  | l :: ls =>
    match parse_record l with
    | none => .error l
    | some r => (parseAll ls).map (fun rs => r :: rs)

/-- The ID-validation loop (download.py lines 124-132): for each requested id
in order, fail on the first one that is not two digits, then on the first one
not among the observed ids.  On success `ids_requested` ends up equal (as a
set) to the whole `data_ids` list, so no accumulator is needed. -/
def validateIds (observed : List String) : List String → Except DlError Unit
  | [] => .ok ()
  | id :: rest =>
    if !twoDigitId id then .error (.invalidId id)
    else if !observed.contains id then .error (.idNotAvailable id)
    else validateIds observed rest

/-- One `fetch_data` task: the target directory, the formatted record name and
the file extension (the three arguments that vary at download.py lines
156-187). -/
structure Artifact where
  dir : String
  record : String
  ext : String
deriving DecidableEq, Repr

/-- The URL composed by `fetch_data` (download.py line 195), relative to
`BASE_URL`. -/
def Artifact.url (a : Artifact) : String :=
  BASE_URL ++ a.dir ++ "&files=" ++ a.record ++ "." ++ a.ext

/-- The local file path composed by `fetch_data` (download.py line 196). -/
def Artifact.localPath (a : Artifact) : String :=
  a.dir ++ "/" ++ a.record ++ "." ++ a.ext

/-- The per-record task fan-out of `download` (lines 154-187): one task per
selected media type, in source order, except that a `depth` task also
requires `r[0] != "emg_force"` (line 168). -/
def expand (media_types : List String) (r : Rec) : List Artifact :=
  let record := formatRecord r
  (if media_types.contains "data-csv" then [⟨DATA_CSV_DIR, record, "zip"⟩] else []) ++
  (if media_types.contains "data-hdf5" then [⟨DATA_HDF5_DIR, record, "hdf5"⟩] else []) ++
  (if media_types.contains "depth" && r.type != "emg_force" then
    [⟨DEPTH_DIR, record, "zip"⟩] else []) ++
  (if media_types.contains "video-1080p" then [⟨VIDEO_1080p_DIR, record, "mp4"⟩] else []) ++
  (if media_types.contains "video-576p" then [⟨VIDEO_576p_DIR, record, "mp4"⟩] else [])

/-- The `os.makedirs` block of `download` (lines 140-149): the directories
created, one per requested media type, before any record is examined. -/
def requestedDirs (media_types : List String) : List String :=
  (if media_types.contains "data-csv" then [DATA_CSV_DIR] else []) ++
  (if media_types.contains "data-hdf5" then [DATA_HDF5_DIR] else []) ++
  (if media_types.contains "depth" then [DEPTH_DIR] else []) ++
  (if media_types.contains "video-1080p" then [VIDEO_1080p_DIR] else []) ++
  (if media_types.contains "video-576p" then [VIDEO_576p_DIR] else [])

/-- The side effects `download` performs after validation succeeds: the
directories it creates and the `fetch_data` tasks it spawns. -/
structure Plan where
  dirs : List String
  tasks : List Artifact
deriving DecidableEq, Repr

/-- `download` (download.py lines 77-189) with its network input made
explicit: `records_available` is the line-split body of the manifest fetched
at lines 108-113.  Control flow follows the source: empty-argument check,
experiment-type loop, media-type loop, manifest parse, ID validation,
directory creation, task fan-out.  The Python code turns `experiment_types`
and `media_types` into sets and sorts `ids`; only membership in them is
observable below, so the lists are used directly. -/
def download (experiment_types media_types data_ids : List String)
    (records_available : List String) : Except DlError Plan :=
  if experiment_types.isEmpty || media_types.isEmpty then .error .missingArguments
  else match experiment_types.find? (fun e => !experimentTypeOk e) with
  | some e => .error (.invalidExperimentType e)
  | none =>
    match media_types.find? (fun m => !mediaTypeOk m) with
    | some m => .error (.invalidMediaType m)
    | none =>
      match parseAll records_available with
      | .error l => .error (.malformedRecord l)
      | .ok records =>
        let observed := records.map Rec.id
        match validateIds observed data_ids with
        | .error err => .error err
        | .ok _ =>
          let ids := if data_ids.isEmpty then observed
            else observed.filter (fun i => data_ids.contains i)
          let matched := records.filter
            (fun r => experiment_types.contains r.type && ids.contains r.id)
          .ok { dirs := requestedDirs media_types,
                tasks := matched.flatMap (expand media_types) }

/-- What `fetch_data` does for one artifact: return early (skip) or perform
one GET against `url` and store the body. -/
inductive FetchOutcome where
  | skipped
  | stored (url : String)
deriving DecidableEq, Repr

/-- `fetch_data` (download.py lines 192-208) with the filesystem probe
`os.path.isfile` passed in as `localExists`. -/
def fetch_data (localExists : String → Bool) (base_url data_dir record file_type : String)
    (overwrite_existing : Bool) : FetchOutcome :=
  let url := base_url ++ data_dir ++ "&files=" ++ record ++ "." ++ file_type
  let file_path := data_dir ++ "/" ++ record ++ "." ++ file_type
  if !overwrite_existing && localExists file_path then .skipped
  else .stored url

/-- The fetch orchestrator: `download` spawns one `fetch_data` task per
artifact (lines 151-189) and gathers them; each task's outcome depends only
on its own artifact. -/
def runFetches (localExists : String → Bool) (overwrite_existing : Bool)
    (artifacts : List Artifact) : List FetchOutcome :=
  artifacts.map (fun a =>
    fetch_data localExists BASE_URL a.dir a.record a.ext overwrite_existing)

/-- The URLs actually requested over the network by a list of outcomes. -/
def networkRequests (outcomes : List FetchOutcome) : List String :=
  outcomes.filterMap (fun o => match o with | .skipped => none | .stored url => some url)

/-- Return value of `get_records_dataframe`: a pandas DataFrame built from
rows (`create_dataframe_from_records_meta`, lines 211-217), the bare Python
list `records_meta` (the `return records_meta` at lines 271 and 274), or an
uncaught `Warning` escaping from `parse_record` (carrying the bad line). -/
inductive DfReturn where
  | dataframe (rows : List Rec)
  | pylist (rows : List Rec)
  | raised (line : String)
deriving DecidableEq, Repr

/-- `get_records_dataframe` (download.py lines 220-285), with the manifest
body passed in as `records_available`.  Same pipeline as `download`, but the
early exits return an empty DataFrame — except the two ID-validation
failures, which return the bare `records_meta` list (still `[]` there). -/
def get_records_dataframe (experiment_types media_types data_ids : List String)
    (records_available : List String) : DfReturn :=
  if experiment_types.isEmpty || media_types.isEmpty then .dataframe []
  else match experiment_types.find? (fun e => !experimentTypeOk e) with
  | some _ => .dataframe []
  | none =>
    match media_types.find? (fun m => !mediaTypeOk m) with
    | some _ => .dataframe []
    | none =>
      match parseAll records_available with
      | .error l => .raised l
      | .ok records =>
        let observed := records.map Rec.id
        match validateIds observed data_ids with
        | .error _ => .pylist []
        | .ok _ =>
          let ids := if data_ids.isEmpty then observed
            else observed.filter (fun i => data_ids.contains i)
          .dataframe (records.filter
            (fun r => experiment_types.contains r.type && ids.contains r.id))

/-- The spec's *effective ID set* (§4.2 step 4): the intersection of observed
IDs and requested IDs when the requested set is non-empty, otherwise the full
observed set. -/
def effectiveIds (observed requested : List String) : List String :=
  if requested.isEmpty then observed else observed.filter (fun i => requested.contains i)

/-! ## Well-formed record names (the canonical name grammar) -/

/-- The `id` field shape: exactly two decimal digits. -/
def IdShape (cs : List Char) : Prop :=
  ∃ a b : Char, cs = [a, b] ∧ a.isDigit = true ∧ b.isDigit = true

/-- The `date` field shape: `YYYY-MM-DD`, all digits. -/
def DateShape (cs : List Char) : Prop :=
  ∃ y1 y2 y3 y4 mo1 mo2 d1 d2 : Char,
    cs = [y1, y2, y3, y4, '-', mo1, mo2, '-', d1, d2] ∧
    (y1.isDigit && y2.isDigit && y3.isDigit && y4.isDigit &&
      mo1.isDigit && mo2.isDigit && d1.isDigit && d2.isDigit) = true

/-- The `time` field shape: `HH-MM-SS-mmm`, all digits. -/
def TimeShape (cs : List Char) : Prop :=
  ∃ h1 h2 mi1 mi2 s1 s2 ms1 ms2 ms3 : Char,
    cs = [h1, h2, '-', mi1, mi2, '-', s1, s2, '-', ms1, ms2, ms3] ∧
    (h1.isDigit && h2.isDigit && mi1.isDigit && mi2.isDigit &&
      s1.isDigit && s2.isDigit && ms1.isDigit && ms2.isDigit && ms3.isDigit) = true

/-- A `Rec` whose five fields fit the canonical name grammar
`<\w* type>-<2-digit id>-<\w* trajectory>-<YYYY-MM-DD>-<HH-MM-SS-mmm>`. -/
def WFRec (r : Rec) : Prop :=
  (∀ c ∈ r.type.data, isWordChar c = true) ∧
  (∀ c ∈ r.trajectory.data, isWordChar c = true) ∧
  IdShape r.id.data ∧ DateShape r.date.data ∧ TimeShape r.time.data

/-! ## Parsing lemmas -/

theorem string_data_append (a b : String) : (a ++ b).data = a.data ++ b.data := rfl

theorem string_data_mk (l : List Char) : (String.mk l).data = l := rfl

theorem dash_data : ("-" : String).data = ['-'] := rfl

theorem wordSpan_append (ws : List Char) (c : Char)
    (hws : ∀ x ∈ ws, isWordChar x = true) (hc : isWordChar c = false)
    (rest : List Char) :
    wordSpan (ws ++ c :: rest) = (ws, c :: rest) := by
  induction ws with
  | nil => simp [wordSpan, hc]
  | cons a as ih =>
    have ha : isWordChar a = true := hws a (by simp)
    have has : ∀ x ∈ as, isWordChar x = true := fun x hx => hws x (by simp [hx])
    simp [wordSpan, ha, ih has]

theorem takeDigits_two (a b : Char)
    (ha : a.isDigit = true) (hb : b.isDigit = true) (rest : List Char) :
    takeDigits 2 (a :: b :: rest) = some ([a, b], rest) := by
  simp [takeDigits, ha, hb]

theorem takeDigits_three (a b c : Char)
    (ha : a.isDigit = true) (hb : b.isDigit = true) (hc : c.isDigit = true)
    (rest : List Char) :
    takeDigits 3 (a :: b :: c :: rest) = some ([a, b, c], rest) := by
  simp [takeDigits, ha, hb, hc]

theorem takeDigits_four (a b c d : Char)
    (ha : a.isDigit = true) (hb : b.isDigit = true) (hc : c.isDigit = true)
    (hd : d.isDigit = true) (rest : List Char) :
    takeDigits 4 (a :: b :: c :: d :: rest) = some ([a, b, c, d], rest) := by
  simp [takeDigits, ha, hb, hc, hd]

theorem takeDate_exact (y1 y2 y3 y4 mo1 mo2 d1 d2 : Char)
    (h : (y1.isDigit && y2.isDigit && y3.isDigit && y4.isDigit &&
      mo1.isDigit && mo2.isDigit && d1.isDigit && d2.isDigit) = true)
    (rest : List Char) :
    takeDate (y1 :: y2 :: y3 :: y4 :: '-' :: mo1 :: mo2 :: '-' :: d1 :: d2 :: rest) =
      some ([y1, y2, y3, y4, '-', mo1, mo2, '-', d1, d2], rest) := by
  simp only [Bool.and_eq_true] at h
  obtain ⟨⟨⟨⟨⟨⟨⟨h1, h2⟩, h3⟩, h4⟩, h5⟩, h6⟩, h7⟩, h8⟩ := h
  simp [takeDate, takeDigits_four _ _ _ _ h1 h2 h3 h4, expectDash,
    takeDigits_two _ _ h5 h6, takeDigits_two _ _ h7 h8]

theorem takeTime_exact (h1 h2 mi1 mi2 s1 s2 ms1 ms2 ms3 : Char)
    (h : (h1.isDigit && h2.isDigit && mi1.isDigit && mi2.isDigit &&
      s1.isDigit && s2.isDigit && ms1.isDigit && ms2.isDigit && ms3.isDigit) = true)
    (rest : List Char) :
    takeTime (h1 :: h2 :: '-' :: mi1 :: mi2 :: '-' :: s1 :: s2 :: '-' ::
        ms1 :: ms2 :: ms3 :: rest) =
      some ([h1, h2, '-', mi1, mi2, '-', s1, s2, '-', ms1, ms2, ms3], rest) := by
  simp only [Bool.and_eq_true] at h
  obtain ⟨⟨⟨⟨⟨⟨⟨⟨q1, q2⟩, q3⟩, q4⟩, q5⟩, q6⟩, q7⟩, q8⟩, q9⟩ := h
  simp [takeTime, takeDigits_two _ _ q1 q2, expectDash,
    takeDigits_two _ _ q3 q4, takeDigits_two _ _ q5 q6,
    takeDigits_three _ _ _ q7 q8 q9]

/-- Running the regex on any well-formed canonical name followed by an
arbitrary suffix: the match stops after the three millisecond digits and
returns exactly the record's five fields. -/
theorem parseRecordChars_format (r : Rec) (suffix : List Char) (h : WFRec r) :
    parseRecordChars ((formatRecord r).data ++ suffix) = some r := by
  obtain ⟨⟨tyl⟩, idf, ⟨trajl⟩, datef, timef⟩ := r
  obtain ⟨hty, htraj, hid, hdate, htime⟩ := h
  obtain ⟨i1, i2, hideq, hi1, hi2⟩ := hid
  obtain ⟨y1, y2, y3, y4, mo1, mo2, d1, d2, hdeq, hddig⟩ := hdate
  obtain ⟨t1, t2, t3, t4, t5, t6, t7, t8, t9, hteq, htdig⟩ := htime
  simp only [string_data_mk] at hideq hdeq hteq
  obtain ⟨idl⟩ := idf
  obtain ⟨datel⟩ := datef
  obtain ⟨timel⟩ := timef
  simp only [string_data_mk] at hideq hdeq hteq
  subst hideq hdeq hteq
  simp only [formatRecord, string_data_append, string_data_mk, dash_data,
    List.cons_append, List.nil_append, List.append_assoc]
  simp only [parseRecordChars, Option.bind_eq_bind, Option.some_bind,
    Option.bind_some, Option.pure_def,
    wordSpan_append tyl '-' hty (by decide),
    expectDash,
    takeDigits_two i1 i2 hi1 hi2,
    wordSpan_append trajl '-' htraj (by decide),
    takeDate_exact y1 y2 y3 y4 mo1 mo2 d1 d2 hddig,
    takeTime_exact t1 t2 t3 t4 t5 t6 t7 t8 t9 htdig]

/-! ## Validation lemmas -/

theorem isEmpty_false_of_ne_nil {α : Type} {l : List α} (h : l ≠ []) :
    l.isEmpty = false := by
  cases l with
  | nil => exact absurd rfl h
  | cons a as => rfl

theorem find?_bad_eq_none {α : Type} (p : α → Bool) (l : List α)
    (h : ∀ x ∈ l, p x = true) : l.find? (fun x => !p x) = none := by
  induction l with
  | nil => rfl
  | cons a as ih =>
    have ha : p a = true := h a (by simp)
    simp [List.find?, ha, ih (fun x hx => h x (by simp [hx]))]

theorem find?_bad_eq_some {α : Type} (p : α → Bool) (l : List α)
    (h : ∃ x ∈ l, p x = false) :
    ∃ y, l.find? (fun x => !p x) = some y ∧ p y = false := by
  induction l with
  | nil => simp at h
  | cons a as ih =>
    by_cases ha : p a = true
    · have : ∃ x ∈ as, p x = false := by
        rcases h with ⟨x, hx, hpx⟩
        rcases List.mem_cons.mp hx with rfl | hx'
        · exact absurd ha (by simp [hpx])
        · exact ⟨x, hx', hpx⟩
      obtain ⟨y, hy, hpy⟩ := ih this
      exact ⟨y, by simp [List.find?, ha, hy], hpy⟩
    · have ha' : p a = false := by simpa using ha
      exact ⟨a, by simp [List.find?, ha'], ha'⟩

theorem validateIds_ok (observed ids : List String)
    (h : ∀ id ∈ ids, twoDigitId id = true ∧ id ∈ observed) :
    validateIds observed ids = .ok () := by
  induction ids with
  | nil => rfl
  | cons a as ih =>
    obtain ⟨h1, h2⟩ := h a (by simp)
    simp [validateIds, h1, h2, ih (fun id hid => h id (by simp [hid]))]

theorem validateIds_error (observed ids : List String)
    (h : ∃ id ∈ ids, ¬(twoDigitId id = true ∧ id ∈ observed)) :
    ∃ id', id' ∈ ids ∧
      (validateIds observed ids = .error (.invalidId id') ∨
       validateIds observed ids = .error (.idNotAvailable id')) := by
  induction ids with
  | nil => simp at h
  | cons a as ih
  => by_cases h1 : twoDigitId a = true
     · by_cases h2 : a ∈ observed
       · have : ∃ id ∈ as, ¬(twoDigitId id = true ∧ id ∈ observed) := by
           rcases h with ⟨id, hmem, hbad⟩
           rcases List.mem_cons.mp hmem with rfl | hmem'
           · exact absurd ⟨h1, h2⟩ hbad
           · exact ⟨id, hmem', hbad⟩
         obtain ⟨id', hmem', hres⟩ := ih this
         refine ⟨id', by simp [hmem'], ?_⟩
         simpa [validateIds, h1, h2] using hres
       · exact ⟨a, by simp, .inr (by simp [validateIds, h1, h2])⟩
     · exact ⟨a, by simp, .inl (by simp [validateIds, h1])⟩

theorem parseAll_error (lines : List String)
    (h : ∃ l ∈ lines, parse_record l = none) :
    ∃ l', l' ∈ lines ∧ parse_record l' = none ∧ parseAll lines = .error l' := by
  induction lines with
  | nil => simp at h
  | cons a as ih =>
    match ha : parse_record a with
    | none => exact ⟨a, by simp, ha, by simp [parseAll, ha]⟩
    | some r =>
      have : ∃ l ∈ as, parse_record l = none := by
        rcases h with ⟨l, hmem, hbad⟩
        rcases List.mem_cons.mp hmem with rfl | hmem'
        · rw [ha] at hbad; exact absurd hbad (by simp)
        · exact ⟨l, hmem', hbad⟩
      obtain ⟨l', hmem', hbad', hres⟩ := ih this
      exact ⟨l', by simp [hmem'], hbad', by simp [parseAll, ha, hres, Except.map]⟩

/-! ## Substring characterization (Python `in` on strings) -/

theorem startsWith_chars_iff (as bs : List Char) :
    as.isPrefixOf bs = true ↔ ∃ post, bs = as ++ post := by
  induction as generalizing bs with
  | nil => simp [List.isPrefixOf]
  | cons a as ih =>
    cases bs with
    | nil => simp [List.isPrefixOf]
    | cons b bs =>
      simp only [List.isPrefixOf, Bool.and_eq_true, beq_iff_eq, ih, List.cons_append,
        List.cons.injEq]
      constructor
      · rintro ⟨rfl, post, rfl⟩; exact ⟨post, rfl, rfl⟩
      · rintro ⟨post, rfl, rfl⟩; exact ⟨rfl, post, rfl⟩

/-- `isSubstringOf` decides exactly contiguous-substring occurrence. -/
theorem isSubstringOf_iff (m t : String) :
    isSubstringOf m t = true ↔ ∃ pre post : List Char, t.data = pre ++ m.data ++ post := by
  unfold isSubstringOf
  rw [List.any_eq_true]
  constructor
  · rintro ⟨suff, hmem, hpref⟩
    obtain ⟨post, rfl⟩ := (startsWith_chars_iff _ _).mp hpref
    obtain ⟨pre, hpre⟩ := (List.mem_tails _ _).mp hmem
    exact ⟨pre, post, by simp [← hpre]⟩
  · rintro ⟨pre, post, heq⟩
    refine ⟨m.data ++ post, (List.mem_tails _ _).mpr ⟨pre, by simp [heq]⟩, ?_⟩
    exact (startsWith_chars_iff _ _).mpr ⟨post, rfl⟩

/-! ## The media-type → (directory, extension) mapping of the spec's table -/

/-- Target directory per media type (spec §4.3 table). -/
def mediaDir : String → String
  | "data-csv" => DATA_CSV_DIR
  | "data-hdf5" => DATA_HDF5_DIR
  | "depth" => DEPTH_DIR
  | "video-1080p" => VIDEO_1080p_DIR
  | _ => VIDEO_576p_DIR

/-- File extension per media type (spec §4.3 table). -/
def mediaExt : String → String
  | "data-csv" => "zip"
  | "data-hdf5" => "hdf5"
  | "depth" => "zip"
  | _ => "mp4"

/-- `expand` produces exactly one artifact per selected media type, in the
fixed order, except `depth` for an `emg_force` record. -/
theorem expand_eq (media : List String) (r : Rec) :
    expand media r =
      (knownMediaTypes.filter (fun mt =>
        media.contains mt && !(mt == "depth" && r.type == "emg_force"))).map
        (fun mt => ⟨mediaDir mt, formatRecord r, mediaExt mt⟩) := by
  by_cases c1 : media.contains "data-csv" = true <;>
  by_cases c2 : media.contains "data-hdf5" = true <;>
  by_cases c3 : media.contains "depth" = true <;>
  by_cases c4 : media.contains "video-1080p" = true <;>
  by_cases c5 : media.contains "video-576p" = true <;>
  by_cases cf : r.type = "emg_force" <;>
  simp_all [expand, knownMediaTypes, mediaDir, mediaExt, List.filter_cons]

/-- An `emg_force` record never yields a `Depth`-directory artifact. -/
theorem expand_no_depth (media : List String) (r : Rec) (h : r.type = "emg_force") :
    ∀ a ∈ expand media r, a.dir ≠ DEPTH_DIR := by
  intro a ha
  rw [expand_eq] at ha
  simp only [List.mem_map, List.mem_filter] at ha
  obtain ⟨mt, ⟨hmem, hcond⟩, rfl⟩ := ha
  simp only [knownMediaTypes, List.mem_cons, List.not_mem_nil, or_false] at hmem
  rcases hmem with rfl | rfl | rfl | rfl | rfl
  · simp [mediaDir, DATA_CSV_DIR, DEPTH_DIR]
  · simp [mediaDir, DATA_HDF5_DIR, DEPTH_DIR]
  · simp [h] at hcond
  · simp [mediaDir, VIDEO_1080p_DIR, DEPTH_DIR]
  · simp [mediaDir, VIDEO_576p_DIR, DEPTH_DIR]

/-- The success path of `download`: when every validation passes, the plan is
the fixed directory list plus one `expand` fan-out per matched record. -/
theorem download_ok (ets mts data_ids manifest : List String) (records : List Rec)
    (hne : ets ≠ []) (hnm : mts ≠ [])
    (het : ∀ e ∈ ets, experimentTypeOk e = true)
    (hmt : ∀ m ∈ mts, mediaTypeOk m = true)
    (hparse : parseAll manifest = .ok records)
    (hids : ∀ id ∈ data_ids, twoDigitId id = true ∧ id ∈ records.map Rec.id) :
    download ets mts data_ids manifest =
      .ok { dirs := requestedDirs mts,
            tasks := (records.filter (fun r =>
              ets.contains r.type &&
                (effectiveIds (records.map Rec.id) data_ids).contains r.id)).flatMap
              (expand mts) } := by
  simp [download, isEmpty_false_of_ne_nil hne, isEmpty_false_of_ne_nil hnm,
    find?_bad_eq_none experimentTypeOk ets het, find?_bad_eq_none mediaTypeOk mts hmt,
    hparse, validateIds_ok _ _ hids, effectiveIds]

/-- The success path of `get_records_dataframe`: same matching, wrapped in a
DataFrame. -/
theorem get_records_dataframe_ok (ets mts data_ids manifest : List String)
    (records : List Rec)
    (hne : ets ≠ []) (hnm : mts ≠ [])
    (het : ∀ e ∈ ets, experimentTypeOk e = true)
    (hmt : ∀ m ∈ mts, mediaTypeOk m = true)
    (hparse : parseAll manifest = .ok records)
    (hids : ∀ id ∈ data_ids, twoDigitId id = true ∧ id ∈ records.map Rec.id) :
    get_records_dataframe ets mts data_ids manifest =
      .dataframe (records.filter (fun r =>
        ets.contains r.type &&
          (effectiveIds (records.map Rec.id) data_ids).contains r.id)) := by
  simp [get_records_dataframe, isEmpty_false_of_ne_nil hne, isEmpty_false_of_ne_nil hnm,
    find?_bad_eq_none experimentTypeOk ets het, find?_bad_eq_none mediaTypeOk mts hmt,
    hparse, validateIds_ok _ _ hids, effectiveIds]

theorem runFetches_all_skip (localExists : String → Bool) (l : List Artifact)
    (h : ∀ a ∈ l, localExists a.localPath = true) :
    runFetches localExists false l = l.map (fun _ => FetchOutcome.skipped) := by
  induction l with
  | nil => rfl
  | cons a as ih =>
    have ha := h a (by simp)
    simp only [Artifact.localPath] at ha
    have ih' := ih (fun x hx => h x (by simp [hx]))
    simp only [runFetches, List.map_cons] at ih' ⊢
    rw [ih']
    simp [fetch_data, ha]

theorem networkRequests_all_skip (l : List Artifact) :
    networkRequests (l.map (fun _ => FetchOutcome.skipped)) = [] := by
  induction l with
  | nil => rfl
  | cons a as _ih => simp [networkRequests, List.filterMap_cons]

/-! ## The claims -/

/-- C1: for every manifest, experiment-type set and ID set passing
validation, the matched record set is exactly the parsed records whose
experiment type is among the requested types and whose participant ID lies in
the effective ID set — the intersection of observed and requested IDs when
requested IDs are given, the full observed set otherwise. -/
theorem C1_matched_record_set (ets mts data_ids manifest : List String)
    (records : List Rec)
    (hne : ets ≠ []) (hnm : mts ≠ [])
    (het : ∀ e ∈ ets, experimentTypeOk e = true)
    (hmt : ∀ m ∈ mts, mediaTypeOk m = true)
    (hparse : parseAll manifest = .ok records)
    (hids : ∀ id ∈ data_ids, twoDigitId id = true ∧ id ∈ records.map Rec.id) :
    get_records_dataframe ets mts data_ids manifest =
      .dataframe (records.filter (fun r =>
        ets.contains r.type &&
          (effectiveIds (records.map Rec.id) data_ids).contains r.id)) ∧
    ∀ i, i ∈ effectiveIds (records.map Rec.id) data_ids ↔
      (i ∈ records.map Rec.id ∧ (data_ids ≠ [] → i ∈ data_ids)) := by
  refine ⟨get_records_dataframe_ok ets mts data_ids manifest records
    hne hnm het hmt hparse hids, fun i => ?_⟩
  cases data_ids with
  | nil => simp [effectiveIds]
  | cons a as => simp [effectiveIds, List.mem_filter]

/-- C1 witness: the spec §8 scenario — two manifest lines, request
`emg_gestures` / `data-csv` with no IDs; exactly the first record matches. -/
theorem C1_witness :
    get_records_dataframe ["emg_gestures"] ["data-csv"] []
      ["emg_gestures-03-walk-2020-01-01-12-00-00-000",
       "emg_force-07-sit-2020-02-02-08-30-00-500"] =
      .dataframe [⟨"emg_gestures", "03", "walk", "2020-01-01", "12-00-00-000"⟩] := by
  have h := (C1_matched_record_set ["emg_gestures"] ["data-csv"] []
    ["emg_gestures-03-walk-2020-01-01-12-00-00-000",
     "emg_force-07-sit-2020-02-02-08-30-00-500"]
    [⟨"emg_gestures", "03", "walk", "2020-01-01", "12-00-00-000"⟩,
     ⟨"emg_force", "07", "sit", "2020-02-02", "08-30-00-500"⟩]
    (by decide) (by decide) (by decide) (by decide) (by rfl) (by simp)).1
  rw [h]
  rfl

/-- C2: for every matched record and selected media-type set, expansion
yields exactly one artifact per selected media type — none for `depth` when
the record is `emg_force`, and one for every other experiment type — and
each artifact's remote URL is `BASE_URL ++ directory ++ "&files=" ++`
canonical name `++ "."` extension with the local path mirroring it under the
same directory (data-csv, depth → zip; data-hdf5 → hdf5; videos → mp4). -/
theorem C2_expand_artifacts (media : List String) (r : Rec) :
    expand media r =
      (knownMediaTypes.filter (fun mt =>
        media.contains mt && !(mt == "depth" && r.type == "emg_force"))).map
        (fun mt => ⟨mediaDir mt, formatRecord r, mediaExt mt⟩) ∧
    (expand media r).map Artifact.url =
      (knownMediaTypes.filter (fun mt =>
        media.contains mt && !(mt == "depth" && r.type == "emg_force"))).map
        (fun mt => BASE_URL ++ mediaDir mt ++ "&files=" ++ formatRecord r ++ "." ++ mediaExt mt) ∧
    (expand media r).map Artifact.localPath =
      (knownMediaTypes.filter (fun mt =>
        media.contains mt && !(mt == "depth" && r.type == "emg_force"))).map
        (fun mt => mediaDir mt ++ "/" ++ formatRecord r ++ "." ++ mediaExt mt) := by
  refine ⟨expand_eq media r, ?_, ?_⟩ <;>
    rw [expand_eq media r] <;>
    simp [List.map_map, Artifact.url, Artifact.localPath, Function.comp]

/-- C3: with `overwrite_existing = false`, an artifact whose local file
exists is skipped without touching the network; over a set where every local
file exists, the orchestrator makes zero network requests. -/
theorem C3_skip_existing (localExists : String → Bool) (artifacts : List Artifact)
    (h : ∀ a ∈ artifacts, localExists a.localPath = true) :
    runFetches localExists false artifacts =
      artifacts.map (fun _ => FetchOutcome.skipped) ∧
    networkRequests (runFetches localExists false artifacts) = [] := by
  have h1 := runFetches_all_skip localExists artifacts h
  exact ⟨h1, by rw [h1]; exact networkRequests_all_skip artifacts⟩

/-- C3 witness: one artifact, local file present, fetch skipped. -/
theorem C3_witness :
    runFetches (fun _ => true) false
      [⟨"Data-CSV", "emg_gestures-03-walk-2020-01-01-12-00-00-000", "zip"⟩] =
      [FetchOutcome.skipped] ∧
    networkRequests (runFetches (fun _ => true) false
      [⟨"Data-CSV", "emg_gestures-03-walk-2020-01-01-12-00-00-000", "zip"⟩]) = [] := by
  have h := C3_skip_existing (fun _ => true)
    [⟨"Data-CSV", "emg_gestures-03-walk-2020-01-01-12-00-00-000", "zip"⟩] (by simp)
  simpa using h

/-- C4: media-type validation accepts a requested element exactly when it is
a substring of one of the five known media types; when some element is a
substring of none of them, `download` fails with the invalid-media-type error
(for every manifest and ID list alike, so before any network I/O) and
produces no plan. -/
theorem C4_media_validation :
    (∀ m, mediaTypeOk m = true ↔
      ∃ t ∈ knownMediaTypes, ∃ pre post : List Char, t.data = pre ++ m.data ++ post) ∧
    ∀ ets mts, ets ≠ [] → (∀ e ∈ ets, experimentTypeOk e = true) →
      (∃ m ∈ mts, mediaTypeOk m = false) →
      ∃ m', mediaTypeOk m' = false ∧
        ∀ data_ids manifest, download ets mts data_ids manifest =
          .error (.invalidMediaType m') := by
  constructor
  · intro m
    unfold mediaTypeOk
    rw [List.any_eq_true]
    constructor
    · rintro ⟨t, ht, hsub⟩; exact ⟨t, ht, (isSubstringOf_iff m t).mp hsub⟩
    · rintro ⟨t, ht, hsub⟩; exact ⟨t, ht, (isSubstringOf_iff m t).mpr hsub⟩
  · intro ets mts hne het hbad
    have hmne : mts ≠ [] := by
      rcases hbad with ⟨m, hm, _⟩; exact List.ne_nil_of_mem hm
    obtain ⟨m', hfind, hm'⟩ := find?_bad_eq_some mediaTypeOk mts hbad
    refine ⟨m', hm', fun data_ids manifest => ?_⟩
    simp [download, isEmpty_false_of_ne_nil hne, isEmpty_false_of_ne_nil hmne,
      find?_bad_eq_none experimentTypeOk ets het, hfind]

/-- C4 witness: `"bogus"` is a substring of no known media type, and
`download` rejects it with the invalid-media-type error on a concrete
manifest. -/
theorem C4_witness :
    mediaTypeOk "bogus" = false ∧
    download ["emg_gestures"] ["bogus"] []
      ["emg_gestures-03-walk-2020-01-01-12-00-00-000"] =
      .error (.invalidMediaType "bogus") := by
  obtain ⟨m', hm', hdl⟩ := C4_media_validation.2 ["emg_gestures"] ["bogus"]
    (by decide) (by decide) ⟨"bogus", by simp, by decide⟩
  have h1 := hdl [] ["emg_gestures-03-walk-2020-01-01-12-00-00-000"]
  have h2 : download ["emg_gestures"] ["bogus"] []
      ["emg_gestures-03-walk-2020-01-01-12-00-00-000"] =
      .error (.invalidMediaType "bogus") := by rfl
  have hmb : m' = "bogus" := by
    have := h1.symm.trans h2
    simpa using this
  exact ⟨hmb ▸ hm', hmb ▸ h1⟩

/-- C5: parsing a well-formed canonical name succeeds deterministically and
formatting the parsed record reproduces the name:
`format (parse name) = name`. -/
theorem C5_parse_format_roundtrip (r : Rec) (h : WFRec r) :
    parse_record (formatRecord r) = some r ∧
    Option.map formatRecord (parse_record (formatRecord r)) = some (formatRecord r) := by
  have key : parse_record (formatRecord r) = some r := by
    have hmain := parseRecordChars_format r [] h
    simpa [parse_record] using hmain
  exact ⟨key, by rw [key]; rfl⟩

/-- C5 witness: a concrete well-formed name round-trips. -/
theorem C5_witness :
    WFRec ⟨"emg_gestures", "03", "walk", "2020-01-01", "12-00-00-000"⟩ ∧
    parse_record (formatRecord ⟨"emg_gestures", "03", "walk", "2020-01-01", "12-00-00-000"⟩) =
      some ⟨"emg_gestures", "03", "walk", "2020-01-01", "12-00-00-000"⟩ := by
  have hwf : WFRec ⟨"emg_gestures", "03", "walk", "2020-01-01", "12-00-00-000"⟩ :=
    ⟨by decide, by decide, ⟨'0', '3', rfl, by decide, by decide⟩,
     ⟨'2', '0', '2', '0', '0', '1', '0', '1', rfl, by decide⟩,
     ⟨'1', '2', '0', '0', '0', '0', '0', '0', '0', rfl, by decide⟩⟩
  exact ⟨hwf, (C5_parse_format_roundtrip _ hwf).1⟩

/-- C6: a requested ID that is not two decimal digits or is absent from the
manifest's observed IDs makes `download` fail with the spec's
`InvalidIdError` (the source's 'Invalid id' / 'ID not available' early
returns) and dispatch no fetch (no plan is produced). -/
theorem C6_invalid_id_aborts (ets mts data_ids manifest : List String)
    (records : List Rec)
    (hne : ets ≠ []) (hnm : mts ≠ [])
    (het : ∀ e ∈ ets, experimentTypeOk e = true)
    (hmt : ∀ m ∈ mts, mediaTypeOk m = true)
    (hparse : parseAll manifest = .ok records)
    (hbad : ∃ id ∈ data_ids, ¬(twoDigitId id = true ∧ id ∈ records.map Rec.id)) :
    (∃ id', download ets mts data_ids manifest = .error (.invalidId id') ∨
      download ets mts data_ids manifest = .error (.idNotAvailable id')) ∧
    ∀ p, download ets mts data_ids manifest ≠ .ok p := by
  obtain ⟨id', _, hres⟩ := validateIds_error (records.map Rec.id) data_ids hbad
  have key : download ets mts data_ids manifest = .error (.invalidId id') ∨
      download ets mts data_ids manifest = .error (.idNotAvailable id') := by
    rcases hres with hE | hE
    · exact .inl (by
        simp [download, isEmpty_false_of_ne_nil hne, isEmpty_false_of_ne_nil hnm,
          find?_bad_eq_none experimentTypeOk ets het, find?_bad_eq_none mediaTypeOk mts hmt,
          hparse, hE])
    · exact .inr (by
        simp [download, isEmpty_false_of_ne_nil hne, isEmpty_false_of_ne_nil hnm,
          find?_bad_eq_none experimentTypeOk ets het, find?_bad_eq_none mediaTypeOk mts hmt,
          hparse, hE])
  refine ⟨⟨id', key⟩, fun p hp => ?_⟩
  rcases key with k | k <;> simp [k] at hp

/-- C6 witness: requested ID `"99"` is well-formed but not observed;
`download` fails with the ID-not-available error and produces no plan. -/
theorem C6_witness :
    download ["emg_gestures"] ["data-csv"] ["99"]
      ["emg_gestures-03-walk-2020-01-01-12-00-00-000"] =
      .error (.idNotAvailable "99") ∧
    download ["emg_gestures"] ["data-csv"] ["99"]
      ["emg_gestures-03-walk-2020-01-01-12-00-00-000"] ≠
      .ok { dirs := [DATA_CSV_DIR], tasks := [] } := by
  have h := C6_invalid_id_aborts ["emg_gestures"] ["data-csv"] ["99"]
    ["emg_gestures-03-walk-2020-01-01-12-00-00-000"]
    [⟨"emg_gestures", "03", "walk", "2020-01-01", "12-00-00-000"⟩]
    (by decide) (by decide) (by decide) (by decide) (by rfl)
    ⟨"99", by simp, by decide⟩
  exact ⟨by rfl, h.2 _⟩

/-- C7: a manifest line that does not match the record grammar parses to no
(even partial) record, and its presence aborts the whole `download`
resolution with the malformed-record error before any record is matched or
fetched. -/
theorem C7_malformed_aborts (ets mts data_ids manifest : List String)
    (hne : ets ≠ []) (hnm : mts ≠ [])
    (het : ∀ e ∈ ets, experimentTypeOk e = true)
    (hmt : ∀ m ∈ mts, mediaTypeOk m = true)
    (hbad : ∃ l ∈ manifest, parse_record l = none) :
    ∃ l', l' ∈ manifest ∧ parse_record l' = none ∧
      download ets mts data_ids manifest = .error (.malformedRecord l') ∧
      ∀ p, download ets mts data_ids manifest ≠ .ok p := by
  obtain ⟨l', hmem, hnone, hpa⟩ := parseAll_error manifest hbad
  have key : download ets mts data_ids manifest = .error (.malformedRecord l') := by
    simp [download, isEmpty_false_of_ne_nil hne, isEmpty_false_of_ne_nil hnm,
      find?_bad_eq_none experimentTypeOk ets het, find?_bad_eq_none mediaTypeOk mts hmt, hpa]
  exact ⟨l', hmem, hnone, key, fun p hp => by simp [key] at hp⟩

/-- C7 witness: the line `"badline"` fails the grammar and aborts the run. -/
theorem C7_witness :
    parse_record "badline" = none ∧
    download ["emg_gestures"] ["data-csv"] [] ["badline"] =
      .error (.malformedRecord "badline") ∧
    download ["emg_gestures"] ["data-csv"] [] ["badline"] ≠
      .ok { dirs := [DATA_CSV_DIR], tasks := [] } := by
  obtain ⟨l', hmem, hnone, hkey, hnok⟩ := C7_malformed_aborts
    ["emg_gestures"] ["data-csv"] [] ["badline"]
    (by decide) (by decide) (by decide) (by decide) ⟨"badline", by simp, by rfl⟩
  have hl : l' = "badline" := by simpa using hmem
  subst hl
  exact ⟨hnone, hkey, hnok _⟩

/-- C8: the regex is anchored only at the start, so any well-formed
canonical name followed by arbitrary trailing characters still parses — to
the record without the trailing text — and formatting that record no longer
reproduces the input. -/
theorem C8_trailing_garbage (r : Rec) (suffix : List Char) (h : WFRec r)
    (hs : suffix ≠ []) :
    parse_record (String.mk ((formatRecord r).data ++ suffix)) = some r ∧
    formatRecord r ≠ String.mk ((formatRecord r).data ++ suffix) := by
  refine ⟨by simpa [parse_record] using parseRecordChars_format r suffix h, ?_⟩
  intro hEq
  have hdata : (formatRecord r).data = (formatRecord r).data ++ suffix :=
    congrArg String.data hEq
  have hlen := congrArg List.length hdata
  simp [List.length_append] at hlen
  exact hs hlen

/-- C8 witness: a concrete name with a trailing `'X'` still parses, and the
parsed record formats back without the `'X'`. -/
theorem C8_witness :
    parse_record (String.mk
      ((formatRecord ⟨"emg_gestures", "03", "walk", "2020-01-01", "12-00-00-000"⟩).data ++
        ['X'])) =
      some ⟨"emg_gestures", "03", "walk", "2020-01-01", "12-00-00-000"⟩ ∧
    formatRecord ⟨"emg_gestures", "03", "walk", "2020-01-01", "12-00-00-000"⟩ ≠
      String.mk
        ((formatRecord ⟨"emg_gestures", "03", "walk", "2020-01-01", "12-00-00-000"⟩).data ++
          ['X']) := by
  have hwf : WFRec ⟨"emg_gestures", "03", "walk", "2020-01-01", "12-00-00-000"⟩ :=
    ⟨by decide, by decide, ⟨'0', '3', rfl, by decide, by decide⟩,
     ⟨'2', '0', '2', '0', '0', '1', '0', '1', rfl, by decide⟩,
     ⟨'1', '2', '0', '0', '0', '0', '0', '0', '0', rfl, by decide⟩⟩
  exact C8_trailing_garbage _ ['X'] hwf (by decide)

/-- C9: when ID validation fails, `get_records_dataframe` returns the bare
(empty) `records_meta` list, unlike every other early-exit path — missing
arguments, invalid experiment type, invalid media type — each of which wraps
the empty list in a DataFrame. -/
theorem C9_return_type_quirk :
    (∀ ets mts data_ids manifest records, ets ≠ [] →
      (∀ e ∈ ets, experimentTypeOk e = true) → mts ≠ [] →
      (∀ m ∈ mts, mediaTypeOk m = true) → parseAll manifest = .ok records →
      (∃ id ∈ data_ids, ¬(twoDigitId id = true ∧ id ∈ records.map Rec.id)) →
      get_records_dataframe ets mts data_ids manifest = .pylist []) ∧
    (∀ mts data_ids manifest,
      get_records_dataframe [] mts data_ids manifest = .dataframe []) ∧
    (∀ ets mts data_ids manifest, (∃ e ∈ ets, experimentTypeOk e = false) →
      get_records_dataframe ets mts data_ids manifest = .dataframe []) ∧
    (∀ ets mts data_ids manifest, ets ≠ [] →
      (∀ e ∈ ets, experimentTypeOk e = true) →
      (∃ m ∈ mts, mediaTypeOk m = false) →
      get_records_dataframe ets mts data_ids manifest = .dataframe []) := by
  refine ⟨?_, ?_, ?_, ?_⟩
  · intro ets mts data_ids manifest records hne het hnm hmt hparse hbad
    obtain ⟨id', _, hres⟩ := validateIds_error (records.map Rec.id) data_ids hbad
    rcases hres with hE | hE <;>
      simp [get_records_dataframe, isEmpty_false_of_ne_nil hne, isEmpty_false_of_ne_nil hnm,
        find?_bad_eq_none experimentTypeOk ets het, find?_bad_eq_none mediaTypeOk mts hmt,
        hparse, hE]
  · intro mts data_ids manifest
    simp [get_records_dataframe]
  · intro ets mts data_ids manifest hbad
    by_cases hm : mts = []
    · subst hm; simp [get_records_dataframe]
    · have hne : ets ≠ [] := by
        rcases hbad with ⟨e, he, _⟩; exact List.ne_nil_of_mem he
      obtain ⟨e', hfind, _⟩ := find?_bad_eq_some experimentTypeOk ets hbad
      simp [get_records_dataframe, isEmpty_false_of_ne_nil hne,
        isEmpty_false_of_ne_nil hm, hfind]
  · intro ets mts data_ids manifest hne het hbad
    have hnm : mts ≠ [] := by
      rcases hbad with ⟨m, hm, _⟩; exact List.ne_nil_of_mem hm
    obtain ⟨m', hfind, _⟩ := find?_bad_eq_some mediaTypeOk mts hbad
    simp [get_records_dataframe, isEmpty_false_of_ne_nil hne, isEmpty_false_of_ne_nil hnm,
      find?_bad_eq_none experimentTypeOk ets het, hfind]

/-- C9 witness: the four paths on concrete inputs — ID failure yields the
bare list, the other early exits yield a DataFrame. -/
theorem C9_witness :
    get_records_dataframe ["emg_gestures"] ["data-csv"] ["99"]
      ["emg_gestures-03-walk-2020-01-01-12-00-00-000"] = .pylist [] ∧
    get_records_dataframe [] ["data-csv"] [] [] = .dataframe [] ∧
    get_records_dataframe ["bogus"] ["data-csv"] [] [] = .dataframe [] ∧
    get_records_dataframe ["emg_gestures"] ["bogus"] [] [] = .dataframe [] := by
  refine ⟨C9_return_type_quirk.1 ["emg_gestures"] ["data-csv"] ["99"]
      ["emg_gestures-03-walk-2020-01-01-12-00-00-000"]
      [⟨"emg_gestures", "03", "walk", "2020-01-01", "12-00-00-000"⟩]
      (by decide) (by decide) (by decide) (by decide) (by rfl)
      ⟨"99", by simp, by decide⟩,
    C9_return_type_quirk.2.1 ["data-csv"] [] [],
    C9_return_type_quirk.2.2.1 ["bogus"] ["data-csv"] [] []
      ⟨"bogus", by simp, by decide⟩,
    C9_return_type_quirk.2.2.2 ["emg_gestures"] ["bogus"] [] []
      (by decide) (by decide) ⟨"bogus", by simp, by decide⟩⟩

/-- C10: `download` creates one directory per requested media type before
examining any record; in particular, requesting `"depth"` creates the
`Depth` directory even when every matched record is `emg_force` and no depth
artifact is ever fetched. -/
theorem C10_directory_without_artifacts (ets mts data_ids manifest : List String)
    (records : List Rec)
    (hne : ets ≠ []) (hnm : mts ≠ [])
    (het : ∀ e ∈ ets, experimentTypeOk e = true)
    (hmt : ∀ m ∈ mts, mediaTypeOk m = true)
    (hparse : parseAll manifest = .ok records)
    (hids : ∀ id ∈ data_ids, twoDigitId id = true ∧ id ∈ records.map Rec.id)
    (hdepth : "depth" ∈ mts)
    (hforce : ∀ r ∈ records, r.type = "emg_force") :
    ∃ plan, download ets mts data_ids manifest = .ok plan ∧
      plan.dirs = requestedDirs mts ∧
      DEPTH_DIR ∈ plan.dirs ∧
      ∀ a ∈ plan.tasks, a.dir ≠ DEPTH_DIR := by
  refine ⟨_, download_ok ets mts data_ids manifest records hne hnm het hmt hparse hids,
    rfl, ?_, ?_⟩
  · simp [requestedDirs, hdepth]
  · intro a ha
    simp only [List.mem_flatMap] at ha
    obtain ⟨r, hr, hae⟩ := ha
    have hr' : r ∈ records := (List.mem_filter.mp hr).1
    exact expand_no_depth mts r (hforce r hr') a hae

/-- C10 witness: requesting `depth` and `data-csv` for an `emg_force`-only
manifest creates the `Depth` directory yet spawns only a `Data-CSV` task. -/
theorem C10_witness :
    download ["emg_force"] ["depth", "data-csv"] []
      ["emg_force-07-repeats-2018-05-11-11-05-00-695"] =
      .ok { dirs := [DATA_CSV_DIR, DEPTH_DIR],
            tasks := [⟨DATA_CSV_DIR, "emg_force-07-repeats-2018-05-11-11-05-00-695", "zip"⟩] } ∧
    DEPTH_DIR ∈ [DATA_CSV_DIR, DEPTH_DIR] ∧
    (⟨DATA_CSV_DIR, "emg_force-07-repeats-2018-05-11-11-05-00-695", "zip"⟩ : Artifact).dir ≠
      DEPTH_DIR := by
  obtain ⟨plan, hdl, hdirs, hmem, hnod⟩ := C10_directory_without_artifacts
    ["emg_force"] ["depth", "data-csv"] []
    ["emg_force-07-repeats-2018-05-11-11-05-00-695"]
    [⟨"emg_force", "07", "repeats", "2018-05-11", "11-05-00-695"⟩]
    (by decide) (by decide) (by decide) (by decide) (by rfl) (by simp)
    (by simp) (by decide)
  have heval : download ["emg_force"] ["depth", "data-csv"] []
      ["emg_force-07-repeats-2018-05-11-11-05-00-695"] =
      .ok { dirs := [DATA_CSV_DIR, DEPTH_DIR],
            tasks := [⟨DATA_CSV_DIR, "emg_force-07-repeats-2018-05-11-11-05-00-695", "zip"⟩] } := by
    rfl
  have hp : plan =
      { dirs := [DATA_CSV_DIR, DEPTH_DIR],
        tasks := [⟨DATA_CSV_DIR, "emg_force-07-repeats-2018-05-11-11-05-00-695", "zip"⟩] } := by
    have := hdl.symm.trans heval
    simpa using this
  subst hp
  exact ⟨heval, hmem, hnod _ (by simp)⟩

end PutEmg
